import Mathlib

/-!
Shallow embedding of the simulation core of `src/main.rs` ("Boar Game").

The game runs three fixed-timestep systems per tick: `move_player`,
`move_camera` and `check_for_collisions`, over entities created once by
`setup`.  Scalar `f32` arithmetic is modelled by exact rational arithmetic
(`ℚ`); every constant of the source is exactly representable.  The Bevy
library function `bevy::sprite::collide_aabb::collide` called by
`check_for_collisions` is embedded from its library source (Bevy 0.9).
-/

namespace BoarGame

/-- `const TIMESTEP: f32 = 3.0 / 60.0;` -/
def TIMESTEP : ℚ := 3 / 60

/-- `const PLAYER_SPEED: f32 = 250.0;` -/
def PLAYER_SPEED : ℚ := 250

/-- `const WALL_THICKNESS: f32 = 10.0;` -/
def WALL_THICKNESS : ℚ := 10

/-- `const TOP_WALL: f32 = 540.0;` -/
def TOP_WALL : ℚ := 540

/-- `const LEFT_WALL: f32 = -960.0;` -/
def LEFT_WALL : ℚ := -960

/-- `const BOTTOM_WALL: f32 = -540.0;` -/
def BOTTOM_WALL : ℚ := -540

/-- `const RIGHT_WALL: f32 = 960.0;` -/
def RIGHT_WALL : ℚ := 960

/-- A 2D vector (`bevy::Vec2`); the unused `z` of `Vec3` translations is dropped. -/
structure Vec2 where
  x : ℚ
  y : ℚ
deriving DecidableEq, Repr

/-- Rust `f32::clamp(self, min, max)`: returns `min` if `self < min`,
`max` if `self > max`, otherwise `self` (the non-panicking path, which
requires `min <= max`). -/
def clampQ (v lo hi : ℚ) : ℚ :=
  if v < lo then lo else if v > hi then hi else v

/-- Snapshot of the four held movement keys (`KeyCode::A/D/W/S`). -/
structure KeyState where
  a : Bool
  d : Bool
  w : Bool
  s : Bool
deriving DecidableEq, Repr

/-- `enum Npc { House, Boar }` -/
inductive Npc
  | House
  | Boar
deriving DecidableEq, Repr

/-- `enum WallLocation { Top, Left, Bottom, Right }` -/
inductive WallLocation
  | Top
  | Left
  | Bottom
  | Right
deriving DecidableEq, Repr

/-- `WallLocation::position`: the middle of the wall. -/
def WallLocation.position : WallLocation → Vec2
  | WallLocation.Top => ⟨0, TOP_WALL⟩
  | WallLocation.Left => ⟨LEFT_WALL, 0⟩
  | WallLocation.Bottom => ⟨0, BOTTOM_WALL⟩
  | WallLocation.Right => ⟨RIGHT_WALL, 0⟩

/-- `WallLocation::size`: the extent of the wall. -/
def WallLocation.size : WallLocation → Vec2
  | WallLocation.Left | WallLocation.Right =>
      ⟨WALL_THICKNESS, TOP_WALL - BOTTOM_WALL - WALL_THICKNESS⟩
  | WallLocation.Top | WallLocation.Bottom =>
      ⟨RIGHT_WALL - LEFT_WALL - WALL_THICKNESS, WALL_THICKNESS⟩

/-- One spawned entity: its `Transform` translation plus which marker
components (`Player`, `MapCamera`, `Collider`, `Npc`, `HealthPoints`)
were attached to it in `setup`. -/
structure Entity where
  translation : Vec2
  hasPlayer : Bool := false
  hasMapCamera : Bool := false
  hasCollider : Bool := false
  npc : Option Npc := none
  health : Option ℚ := none
deriving DecidableEq, Repr

/-- `bevy::sprite::collide_aabb::Collision` -/
inductive Collision
  | Left
  | Right
  | Top
  | Bottom
  | Inside
deriving DecidableEq, Repr

/-- `y_depth.abs() < x_depth.abs()` where `none` stands for the
`-f32::INFINITY` sentinel depth (whose absolute value is `+INFINITY`). -/
def depthAbsLt : Option ℚ → Option ℚ → Bool
  | none, _ => false
  | some _, none => true
  | some yd, some xd => decide (|yd| < |xd|)

/-- `bevy::sprite::collide_aabb::collide` (Bevy 0.9): AABB overlap with
side detection, for rectangles given by center position and full size. -/
def collide (a_pos a_size b_pos b_size : Vec2) : Option Collision :=
  let a_min_x := a_pos.x - a_size.x / 2
  let a_max_x := a_pos.x + a_size.x / 2
  let a_min_y := a_pos.y - a_size.y / 2
  let a_max_y := a_pos.y + a_size.y / 2
  let b_min_x := b_pos.x - b_size.x / 2
  let b_max_x := b_pos.x + b_size.x / 2
  let b_min_y := b_pos.y - b_size.y / 2
  let b_max_y := b_pos.y + b_size.y / 2
  if a_min_x < b_max_x ∧ a_max_x > b_min_x ∧ a_min_y < b_max_y ∧ a_max_y > b_min_y then
    let xc : Collision × Option ℚ :=
      if a_min_x < b_min_x ∧ a_max_x > b_min_x ∧ a_max_x < b_max_x then
        (Collision.Left, some (b_min_x - a_max_x))
      else if a_min_x > b_min_x ∧ a_min_x < b_max_x ∧ a_max_x > b_max_x then
        (Collision.Right, some (a_min_x - b_max_x))
      else
        (Collision.Inside, none)
    let yc : Collision × Option ℚ :=
      if a_min_y < b_min_y ∧ a_max_y > b_min_y ∧ a_max_y < b_max_y then
        (Collision.Bottom, some (b_min_y - a_max_y))
      else if a_min_y > b_min_y ∧ a_min_y < b_max_y ∧ a_max_y > b_max_y then
        (Collision.Top, some (a_min_y - b_max_y))
      else
        (Collision.Inside, none)
    if depthAbsLt yc.2 xc.2 then some yc.1 else some xc.1
  else
    none

/-- `fn move_player`: accumulate a per-axis direction from the held keys,
advance by `direction * PLAYER_SPEED * TIMESTEP`, and clamp each axis
into the wall-derived bounds. -/
def move_player (keys : KeyState) (p : Vec2) : Vec2 :=
  let x_direction : ℚ := 0
  let x_direction := if keys.a then x_direction - 1 else x_direction
  let x_direction := if keys.d then x_direction + 1 else x_direction
  let y_direction : ℚ := 0
  let y_direction := if keys.w then y_direction + 1 else y_direction
  let y_direction := if keys.s then y_direction - 1 else y_direction
  let new_transform_x := p.x + x_direction * PLAYER_SPEED * TIMESTEP
  let new_transform_y := p.y + y_direction * PLAYER_SPEED * TIMESTEP
  let left_bound := LEFT_WALL + WALL_THICKNESS / 2 + 16
  let right_bound := RIGHT_WALL - WALL_THICKNESS / 2 - 16
  let top_bound := TOP_WALL - WALL_THICKNESS / 2 - 24
  let bottom_bound := BOTTOM_WALL + WALL_THICKNESS / 2 + 16
  { x := clampQ new_transform_x left_bound right_bound,
    y := clampQ new_transform_y bottom_bound top_bound }

/-- `fn move_camera`: same routine applied to the `MapCamera` transform. -/
def move_camera (keys : KeyState) (p : Vec2) : Vec2 :=
  let x_direction : ℚ := 0
  let x_direction := if keys.a then x_direction - 1 else x_direction
  let x_direction := if keys.d then x_direction + 1 else x_direction
  let y_direction : ℚ := 0
  let y_direction := if keys.w then y_direction + 1 else y_direction
  let y_direction := if keys.s then y_direction - 1 else y_direction
  let new_transform_x := p.x + x_direction * PLAYER_SPEED * TIMESTEP
  let new_transform_y := p.y + y_direction * PLAYER_SPEED * TIMESTEP
  let left_bound := LEFT_WALL + WALL_THICKNESS / 2 + 16
  let right_bound := RIGHT_WALL - WALL_THICKNESS / 2 - 16
  let top_bound := TOP_WALL - WALL_THICKNESS / 2 - 24
  let bottom_bound := BOTTOM_WALL + WALL_THICKNESS / 2 + 16
  { x := clampQ new_transform_x left_bound right_bound,
    y := clampQ new_transform_y bottom_bound top_bound }

/-- The movement bounds of `move_player`/`move_camera`, lifted to the top
level for the statements below. -/
def left_bound : ℚ := LEFT_WALL + WALL_THICKNESS / 2 + 16

/-- Right movement bound. -/
def right_bound : ℚ := RIGHT_WALL - WALL_THICKNESS / 2 - 16

/-- Upper movement bound. -/
def top_bound : ℚ := TOP_WALL - WALL_THICKNESS / 2 - 24

/-- Lower movement bound. -/
def bottom_bound : ℚ := BOTTOM_WALL + WALL_THICKNESS / 2 + 16

/-- Both coordinates lie inside the movement bounds. -/
def inBounds (p : Vec2) : Prop :=
  left_bound ≤ p.x ∧ p.x ≤ right_bound ∧ bottom_bound ≤ p.y ∧ p.y ≤ top_bound

instance (p : Vec2) : Decidable (inBounds p) := by
  unfold inBounds
  infer_instance

/-- Player spawn translation: `Transform::from_xyz(350., 350., 0.2)`. -/
def player_start : Vec2 := ⟨350, 350⟩

/-- Camera spawn translation: `Transform::from_xyz(350.0, 350.0, 0.5)`. -/
def camera_start : Vec2 := ⟨350, 350⟩

/-- Fold `move_player` over a sequence of per-tick key snapshots. -/
def player_run (inputs : List KeyState) (p : Vec2) : Vec2 :=
  inputs.foldl (fun q keys => move_player keys q) p

/-- Fold `move_camera` over a sequence of per-tick key snapshots. -/
def camera_run (inputs : List KeyState) (p : Vec2) : Vec2 :=
  inputs.foldl (fun q keys => move_camera keys q) p

/-- A reaction spawned by the interaction dispatch: the `Text2dBundle`
created for `Npc::House` (text content and world translation). -/
inductive Reaction
  | text2d (content : String) (translation : Vec2)
deriving DecidableEq, Repr

/-- Observable output of one `check_for_collisions` pass: how many
`CollisionEvent`s were sent and which entities were spawned. -/
structure TickOutput where
  events : Nat
  spawns : List Reaction
deriving DecidableEq, Repr

/-- A program abort; `todo!()` panics with an unimplemented-path message. -/
inductive Panic
  | todoUnimplemented
deriving DecidableEq, Repr

/-- Body of the `for` loop of `check_for_collisions` for one entry
`(transform, maybe_npc)` of the collider query: test the player's fixed
64×64 AABB against the entry's fixed 64×64 AABB; on contact send a
`CollisionEvent` and dispatch on the optional `Npc` kind
(`House` spawns a `"House"` text at `(350, 0)`; `Boar` hits `todo!()`). -/
def processCollider (player_translation : Vec2) (acc : TickOutput)
    (c : Vec2 × Option Npc) : Except Panic TickOutput :=
  match collide player_translation ⟨64, 64⟩ c.1 ⟨64, 64⟩ with
  | none => Except.ok acc
  | some _ =>
      let acc1 : TickOutput := { acc with events := acc.events + 1 }
      match c.2 with
      | none => Except.ok acc1
      | some Npc.House =>
          Except.ok { acc1 with
            spawns := acc1.spawns ++ [Reaction.text2d "House" ⟨350, 0⟩] }
      | some Npc.Boar => Except.error Panic.todoUnimplemented

/-- `fn check_for_collisions`: run the loop body over every entry of the
collider query in order; a `todo!()` panic aborts the whole pass. -/
def check_for_collisions (player_translation : Vec2)
    (collider_query : List (Vec2 × Option Npc)) : Except Panic TickOutput :=
  collider_query.foldlM (processCollider player_translation) ⟨0, []⟩

/-- The entities spawned by `fn setup`, in spawn order, with the player's
translation as a parameter (it is the one translation the movement system
mutates between setup and a later tick's collision pass): the `MapCamera`,
the background sprite, the player (`Player` + `HealthPoints(100)` +
`Collider`), the House (`Npc::House`), the Boar (`Npc::Boar` +
`HealthPoints(40)`), and the four walls (each a `Collider`). -/
def world_entities (playerPos : Vec2) : List Entity :=
  [ { translation := ⟨350, 350⟩, hasMapCamera := true },
    { translation := ⟨0, 0⟩ },
    { translation := playerPos, hasPlayer := true, hasCollider := true,
      health := some 100 },
    { translation := ⟨350, 0⟩, npc := some Npc.House },
    { translation := ⟨-254, 180⟩, npc := some Npc.Boar, health := some 40 },
    { translation := WallLocation.position WallLocation.Top, hasCollider := true },
    { translation := WallLocation.position WallLocation.Left, hasCollider := true },
    { translation := WallLocation.position WallLocation.Bottom, hasCollider := true },
    { translation := WallLocation.position WallLocation.Right, hasCollider := true } ]

/-- The world exactly as `fn setup` leaves it (player still at its spawn
translation). -/
def setup_entities : List Entity := world_entities player_start

/-- The collider query of `check_for_collisions`:
`Query<(&Transform, Option<&Npc>), With<Collider>>` — every entity with a
`Collider`, yielding its translation and optional `Npc` kind. -/
def colliderInputs (playerPos : Vec2) : List (Vec2 × Option Npc) :=
  ((world_entities playerPos).filter (fun e => e.hasCollider)).map
    (fun e => (e.translation, e.npc))

/-- One collision-and-interaction pass over the setup world with the
player at `playerPos`. -/
def run_tick_collisions (playerPos : Vec2) : Except Panic TickOutput :=
  check_for_collisions playerPos (colliderInputs playerPos)

/-- Camera spawn zoom: `OrthographicProjection { scale: 0.5, .. }`. -/
def initial_zoom_scale : ℚ := 1 / 2

/-- Modelled from the spec: no zoom-key handling exists in `src/main.rs`
(setup only fixes the initial scale `0.5`); the spec's Camera System
describes it as: two dedicated keys multiply the zoom scale by fixed
factors (zoom-out factor > 1, zoom-in factor < 1) each tick the key is
held, then the result is clamped to `[0.5, 2.0]`. -/
def zoom_tick (fout fin : ℚ) (zoomOutHeld zoomInHeld : Bool) (scale : ℚ) : ℚ :=
  let scale1 := if zoomOutHeld then scale * fout else scale
  let scale2 := if zoomInHeld then scale1 * fin else scale1
  clampQ scale2 (1 / 2) 2

/-- Fold the modelled zoom tick over a sequence of per-tick
(zoom-out-held, zoom-in-held) snapshots. -/
def zoom_run (fout fin : ℚ) (inputs : List (Bool × Bool)) (scale : ℚ) : ℚ :=
  inputs.foldl (fun t i => zoom_tick fout fin i.1 i.2 t) scale

/-- No movement key held. -/
def noKeys : KeyState := { a := false, d := false, w := false, s := false }

/-- Only the `D` (move right) key held. -/
def holdD : KeyState := { a := false, d := true, w := false, s := false }

lemma clampQ_mem (v lo hi : ℚ) (h : lo ≤ hi) :
    lo ≤ clampQ v lo hi ∧ clampQ v lo hi ≤ hi := by
  unfold clampQ
  split
  next hv => exact ⟨le_refl _, h⟩
  next hv =>
    split
    next hv2 => exact ⟨h, le_refl _⟩
    next hv2 => exact ⟨not_lt.mp hv, not_lt.mp hv2⟩

lemma clampQ_of_mem (v lo hi : ℚ) (h1 : lo ≤ v) (h2 : v ≤ hi) :
    clampQ v lo hi = v := by
  unfold clampQ
  split
  next hv => exact absurd h1 (not_le.mpr hv)
  next hv =>
    split
    next hv2 => exact absurd h2 (not_le.mpr hv2)
    next hv2 => rfl

lemma clampQ_of_lt (v lo hi : ℚ) (h : v < lo) : clampQ v lo hi = lo := by
  unfold clampQ
  rw [if_pos h]

lemma clampQ_of_gt (v lo hi : ℚ) (hlh : lo ≤ hi) (h : hi < v) :
    clampQ v lo hi = hi := by
  unfold clampQ
  rw [if_neg (not_lt.mpr (le_trans hlh (le_of_lt h))), if_pos h]

lemma clampQ_idem (v lo hi : ℚ) (h : lo ≤ hi) :
    clampQ (clampQ v lo hi) lo hi = clampQ v lo hi :=
  clampQ_of_mem _ _ _ (clampQ_mem v lo hi h).1 (clampQ_mem v lo hi h).2

lemma left_le_right_bound : left_bound ≤ right_bound := by
  norm_num [left_bound, right_bound, LEFT_WALL, RIGHT_WALL, WALL_THICKNESS]

lemma bottom_le_top_bound : bottom_bound ≤ top_bound := by
  norm_num [bottom_bound, top_bound, BOTTOM_WALL, TOP_WALL, WALL_THICKNESS]

lemma move_player_eq (keys : KeyState) (p : Vec2) :
    move_player keys p =
      { x := clampQ (p.x + ((if keys.d then (1 : ℚ) else 0) -
                (if keys.a then 1 else 0)) * PLAYER_SPEED * TIMESTEP)
              left_bound right_bound,
        y := clampQ (p.y + ((if keys.w then (1 : ℚ) else 0) -
                (if keys.s then 1 else 0)) * PLAYER_SPEED * TIMESTEP)
              bottom_bound top_bound } := by
  rcases keys with ⟨a, d, w, s⟩
  cases a <;> cases d <;> cases w <;> cases s <;>
    simp [move_player, left_bound, right_bound, top_bound, bottom_bound]

lemma move_player_inBounds (keys : KeyState) (p : Vec2) :
    inBounds (move_player keys p) := by
  rw [move_player_eq]
  exact ⟨(clampQ_mem _ _ _ left_le_right_bound).1,
         (clampQ_mem _ _ _ left_le_right_bound).2,
         (clampQ_mem _ _ _ bottom_le_top_bound).1,
         (clampQ_mem _ _ _ bottom_le_top_bound).2⟩

lemma camera_run_eq_player_run (inputs : List KeyState) (p : Vec2) :
    camera_run inputs p = player_run inputs p := rfl

lemma player_run_concat (L : List KeyState) (keys : KeyState) (p : Vec2) :
    player_run (L ++ [keys]) p = move_player keys (player_run L p) := by
  simp [player_run, List.foldl_append]

/-- C1: for every sequence of held-key inputs and every number of ticks
starting from the initial setup state, the player's and the camera's
positions after each tick lie within `[lower_bound, upper_bound]` on both
axes (the bounds being the world edges moved inward by half the wall
thickness plus the entity half-extent).  Stated for an arbitrary nonempty
input sequence; every tick of a longer run is the last tick of one of its
prefixes, which is again such a sequence. -/
theorem C1_bound_containment (inputs : List KeyState) (h : inputs ≠ []) :
    inBounds (player_run inputs player_start) ∧
    inBounds (camera_run inputs camera_start) := by
  rcases List.eq_nil_or_concat inputs with rfl | ⟨L, keys, rfl⟩
  · exact absurd rfl h
  · constructor
    · rw [List.concat_eq_append, player_run_concat]
      exact move_player_inBounds _ _
    · rw [camera_run_eq_player_run, List.concat_eq_append, player_run_concat]
      exact move_player_inBounds _ _

/-- Witness for C1 at the concrete one-tick input holding only `A`. -/
theorem C1_bound_containment_witness :
    ([⟨true, false, false, false⟩] : List KeyState) ≠ [] ∧
    (inBounds (player_run [⟨true, false, false, false⟩] player_start) ∧
     inBounds (camera_run [⟨true, false, false, false⟩] camera_start)) :=
  ⟨by decide, C1_bound_containment [⟨true, false, false, false⟩] (by decide)⟩

/-- C5: one player movement tick computes a per-axis direction of `+1`,
`-1` or `0` from the four held keys (opposing keys cancel, no key gives
`0`), adds `direction * PLAYER_SPEED * TIMESTEP` to the current position
per axis, and clamps each axis independently into
`[lower_bound, upper_bound]`; the stored position after the tick equals
this clamped value. -/
theorem C5_movement_tick_formula (keys : KeyState) (p : Vec2) :
    move_player keys p =
      { x := clampQ (p.x + ((if keys.d then (1 : ℚ) else 0) -
                (if keys.a then 1 else 0)) * PLAYER_SPEED * TIMESTEP)
              left_bound right_bound,
        y := clampQ (p.y + ((if keys.w then (1 : ℚ) else 0) -
                (if keys.s then 1 else 0)) * PLAYER_SPEED * TIMESTEP)
              bottom_bound top_bound } :=
  move_player_eq keys p

/-- C9: the camera position update is the same function as the player
position update — for every key snapshot and starting position both ticks
produce identical new positions. -/
theorem C9_camera_update_eq_player_update (keys : KeyState) (p : Vec2) :
    move_camera keys p = move_player keys p := rfl

/-- C8 as stated is false: from `(0, 0)` holding only `D`, one tick moves
the player to `x = 12.5`, a second identical tick to `x = 25`, so applying
the movement tick twice with identical input differs from applying it
once. -/
theorem C8_idempotence_counterexample :
    ¬ (move_player holdD (move_player holdD ⟨0, 0⟩) =
        move_player holdD ⟨0, 0⟩) := by
  norm_num [move_player_eq, holdD, clampQ, left_bound, right_bound,
    bottom_bound, top_bound, PLAYER_SPEED, TIMESTEP, LEFT_WALL, RIGHT_WALL,
    TOP_WALL, BOTTOM_WALL, WALL_THICKNESS]

/-- C8 (amended): the movement tick is idempotent when no movement key is
held; re-clamping an already-in-bound coordinate is a no-op; and one clamp
call brings any out-of-bound coordinate to the nearest in-bound edge
value. -/
theorem C8_movement_clamp_amended (p : Vec2) (v lo hi : ℚ) (hlh : lo ≤ hi) :
    move_player noKeys (move_player noKeys p) = move_player noKeys p ∧
    (lo ≤ v ∧ v ≤ hi → clampQ v lo hi = v) ∧
    (v < lo → clampQ v lo hi = lo) ∧
    (hi < v → clampQ v lo hi = hi) := by
  refine ⟨?_, fun hm => clampQ_of_mem v lo hi hm.1 hm.2,
          fun hv => clampQ_of_lt v lo hi hv,
          fun hv => clampQ_of_gt v lo hi hlh hv⟩
  have hnk : ∀ q : Vec2, move_player noKeys q =
      { x := clampQ q.x left_bound right_bound,
        y := clampQ q.y bottom_bound top_bound } := by
    intro q
    rw [move_player_eq]
    norm_num [noKeys]
  rw [hnk, hnk]
  simp [clampQ_idem _ _ _ left_le_right_bound,
        clampQ_idem _ _ _ bottom_le_top_bound]

/-- Witness for C8 (amended) at concrete values. -/
theorem C8_movement_clamp_amended_witness :
    (0 : ℚ) ≤ 10 ∧
    (move_player noKeys (move_player noKeys ⟨42, 7⟩) =
        move_player noKeys ⟨42, 7⟩ ∧
     ((0 : ℚ) ≤ 25 ∧ (25 : ℚ) ≤ 10 → clampQ 25 0 10 = 25) ∧
     ((25 : ℚ) < 0 → clampQ 25 0 10 = 0) ∧
     ((10 : ℚ) < 25 → clampQ 25 0 10 = 10)) :=
  ⟨by norm_num, C8_movement_clamp_amended ⟨42, 7⟩ 25 0 10 (by norm_num)⟩

lemma isSome_if_some {α : Type} (c : Prop) [Decidable c] (x y : α) :
    (if c then some x else some y).isSome = true := by
  by_cases h : c
  · rw [if_pos h]; rfl
  · rw [if_neg h]; rfl

lemma collide_isSome_iff (a_pos a_size b_pos b_size : Vec2) :
    (collide a_pos a_size b_pos b_size).isSome = true ↔
      (a_pos.x - a_size.x / 2 < b_pos.x + b_size.x / 2 ∧
       a_pos.x + a_size.x / 2 > b_pos.x - b_size.x / 2 ∧
       a_pos.y - a_size.y / 2 < b_pos.y + b_size.y / 2 ∧
       a_pos.y + a_size.y / 2 > b_pos.y - b_size.y / 2) := by
  simp only [collide]
  split
  next h => exact iff_of_true (isSome_if_some _ _ _) h
  next h => exact iff_of_false (by simp) h

/-- C6: the overlap test between two entities, each given by a center and
half-extents (half of the size handed to `collide`), reports contact iff
`|dx| < half_w1 + half_w2` and `|dy| < half_h1 + half_h2`; in particular
two entities farther apart on some axis than the sum of their
half-extents on that axis never report contact. -/
theorem C6_overlap_iff (a_pos a_size b_pos b_size : Vec2) :
    ((collide a_pos a_size b_pos b_size).isSome = true ↔
      |a_pos.x - b_pos.x| < a_size.x / 2 + b_size.x / 2 ∧
      |a_pos.y - b_pos.y| < a_size.y / 2 + b_size.y / 2) ∧
    ((a_size.x / 2 + b_size.x / 2 ≤ |a_pos.x - b_pos.x| ∨
      a_size.y / 2 + b_size.y / 2 ≤ |a_pos.y - b_pos.y|) →
      collide a_pos a_size b_pos b_size = none) := by
  have hiff : (collide a_pos a_size b_pos b_size).isSome = true ↔
      |a_pos.x - b_pos.x| < a_size.x / 2 + b_size.x / 2 ∧
      |a_pos.y - b_pos.y| < a_size.y / 2 + b_size.y / 2 := by
    rw [collide_isSome_iff, abs_lt, abs_lt]
    constructor
    · rintro ⟨h1, h2, h3, h4⟩
      exact ⟨⟨by linarith, by linarith⟩, by linarith, by linarith⟩
    · rintro ⟨⟨h1, h2⟩, h3, h4⟩
      exact ⟨by linarith, by linarith, by linarith, by linarith⟩
  refine ⟨hiff, fun hfar => ?_⟩
  have hno : ¬ (collide a_pos a_size b_pos b_size).isSome = true := by
    rw [hiff]
    rintro ⟨hx, hy⟩
    rcases hfar with h | h
    · exact absurd hx (not_lt.mpr h)
    · exact absurd hy (not_lt.mpr h)
  simpa [Option.not_isSome_iff_eq_none] using hno

/-- Witness for C6: centers `200` apart on the x axis with half-extents
summing to `64` never report contact. -/
theorem C6_overlap_iff_witness :
    collide ⟨0, 0⟩ ⟨64, 64⟩ ⟨200, 0⟩ ⟨64, 64⟩ = none :=
  (C6_overlap_iff ⟨0, 0⟩ ⟨64, 64⟩ ⟨200, 0⟩ ⟨64, 64⟩).2 (Or.inl (by norm_num))

/-- C7: if the interaction dispatch is reached for a contacted collider
whose kind tag is `Boar`, the pass aborts with the `todo!()`
unimplemented-path panic (a fatal crash, not a recoverable result). -/
theorem C7_boar_dispatch_aborts (player_translation c : Vec2)
    (acc : TickOutput)
    (h : (collide player_translation ⟨64, 64⟩ c ⟨64, 64⟩).isSome = true) :
    processCollider player_translation acc (c, some Npc.Boar) =
      Except.error Panic.todoUnimplemented := by
  unfold processCollider
  split
  next heq => rw [heq] at h; simp at h
  next col heq => rfl

/-- Witness for C7: a Boar-kinded collider exactly at the player's
position is contacted and the dispatch aborts. -/
theorem C7_boar_dispatch_aborts_witness :
    (collide ⟨0, 0⟩ ⟨64, 64⟩ ⟨0, 0⟩ ⟨64, 64⟩).isSome = true ∧
    processCollider ⟨0, 0⟩ ⟨0, []⟩ (⟨0, 0⟩, some Npc.Boar) =
      Except.error Panic.todoUnimplemented :=
  ⟨(collide_isSome_iff _ _ _ _).mpr (by norm_num),
   C7_boar_dispatch_aborts ⟨0, 0⟩ ⟨0, 0⟩ ⟨0, []⟩
     ((collide_isSome_iff _ _ _ _).mpr (by norm_num))⟩

lemma except_bind_ok {ε α β : Type} (x : α) (f : α → Except ε β) :
    ((Except.ok x : Except ε α) >>= f) = f x := rfl

lemma colliderInputs_eq (p : Vec2) :
    colliderInputs p =
      [(p, none), (⟨0, 540⟩, none), (⟨-960, 0⟩, none),
       (⟨0, -540⟩, none), (⟨960, 0⟩, none)] := rfl

lemma foldlM_no_npc (pp : Vec2) (cs : List (Vec2 × Option Npc))
    (acc : TickOutput) (h : ∀ c ∈ cs, c.2 = none) :
    ∃ out, cs.foldlM (processCollider pp) acc = Except.ok out ∧
      out.spawns = acc.spawns := by
  induction cs generalizing acc with
  | nil => exact ⟨acc, rfl, rfl⟩
  | cons c cs ih =>
    have hc : c.2 = none := h c (List.mem_cons_self c cs)
    have hcs : ∀ x ∈ cs, x.2 = none := fun x hx => h x (List.mem_cons_of_mem _ hx)
    have hstep : ∃ acc', processCollider pp acc c = Except.ok acc' ∧
        acc'.spawns = acc.spawns := by
      unfold processCollider
      split
      next heq => exact ⟨acc, rfl, rfl⟩
      next col heq => rw [hc]; exact ⟨_, rfl, rfl⟩
    obtain ⟨acc', hstep_eq, hstep_sp⟩ := hstep
    obtain ⟨out, hout, hsp⟩ := ih acc' hcs
    refine ⟨out, ?_, by rw [hsp, hstep_sp]⟩
    rw [List.foldlM_cons, hstep_eq, except_bind_ok]
    exact hout

/-- C2 as stated fails on the code: with the player exactly at the House
translation `(350, 0)`, the pass emits exactly one `CollisionEvent` — but
it comes from the player overlapping its own AABB, and no House label is
spawned, because the House entity carries no `Collider` and hence never
appears in the collider query. -/
theorem C2_house_scenario_code_behavior :
    run_tick_collisions ⟨350, 0⟩ = Except.ok ⟨1, []⟩ := by
  rw [run_tick_collisions, check_for_collisions, colliderInputs_eq]
  norm_num [List.foldlM_cons, List.foldlM_nil, except_bind_ok,
    processCollider, collide, depthAbsLt]

/-- C3 fails on the code: the player entity carries `Collider`, the
collider query filters on `Collider` alone, so the query contains the
player itself; at the setup position the player overlaps its own AABB and
the tick's single contact event is exactly this self-contact. -/
theorem C3_self_collision_code_behavior :
    (setup_entities.filter (fun e => e.hasCollider)).any
        (fun e => e.hasPlayer) = true ∧
    (collide player_start ⟨64, 64⟩ player_start ⟨64, 64⟩).isSome = true ∧
    run_tick_collisions player_start = Except.ok ⟨1, []⟩ := by
  refine ⟨by decide, (collide_isSome_iff _ _ _ _).mpr (by norm_num [player_start]), ?_⟩
  rw [run_tick_collisions, check_for_collisions, colliderInputs_eq]
  norm_num [List.foldlM_cons, List.foldlM_nil, except_bind_ok,
    processCollider, collide, depthAbsLt, player_start]

/-- C10: no entity created at setup carries both the `Collider` flag and
an `Npc` kind tag, so for every player position the collision pass never
reaches the kind-specific dispatch branches: it neither aborts on the
Boar `todo!()` nor spawns a House label. -/
theorem C10_kind_dispatch_unreachable (p : Vec2) :
    (setup_entities.all fun e => !(e.hasCollider && e.npc.isSome)) = true ∧
    ∃ out, run_tick_collisions p = Except.ok out ∧ out.spawns = [] := by
  refine ⟨by decide, ?_⟩
  have h : ∀ c ∈ colliderInputs p, c.2 = (none : Option Npc) := by
    rw [colliderInputs_eq]
    intro c hc
    fin_cases hc <;> rfl
  obtain ⟨out, hout, hsp⟩ := foldlM_no_npc p (colliderInputs p) ⟨0, []⟩ h
  exact ⟨out, hout, hsp⟩

lemma zoom_tick_mem (fout fin : ℚ) (zo zi : Bool) (t : ℚ) :
    1 / 2 ≤ zoom_tick fout fin zo zi t ∧ zoom_tick fout fin zo zi t ≤ 2 := by
  unfold zoom_tick
  exact clampQ_mem _ _ _ (by norm_num)

lemma zoom_run_mem (fout fin : ℚ) (inputs : List (Bool × Bool)) (t : ℚ)
    (h1 : 1 / 2 ≤ t) (h2 : t ≤ 2) :
    1 / 2 ≤ zoom_run fout fin inputs t ∧ zoom_run fout fin inputs t ≤ 2 := by
  induction inputs generalizing t with
  | nil => exact ⟨h1, h2⟩
  | cons i inputs ih =>
    have hm := zoom_tick_mem fout fin i.1 i.2 t
    exact ih _ hm.1 hm.2

/-- C4 (modelled from the spec, no zoom-key code exists in `src/`): each
tick the zoom-out key is held the scale is multiplied by a fixed factor
greater than 1, each tick the zoom-in key is held by a fixed factor less
than 1, the result is clamped, and for every sequence of zoom-key holds
the zoom scale starting from the setup scale `0.5` always lies in
`[0.5, 2.0]`. -/
theorem C4_zoom_clamp (fout fin : ℚ) (_h1 : 1 < fout) (_h2 : 0 < fin)
    (_h3 : fin < 1) (t : ℚ) (inputs : List (Bool × Bool)) :
    zoom_tick fout fin true false t = clampQ (t * fout) (1 / 2) 2 ∧
    zoom_tick fout fin false true t = clampQ (t * fin) (1 / 2) 2 ∧
    (1 / 2 ≤ zoom_run fout fin inputs initial_zoom_scale ∧
     zoom_run fout fin inputs initial_zoom_scale ≤ 2) :=
  ⟨rfl, rfl,
   zoom_run_mem fout fin inputs initial_zoom_scale
     (by norm_num [initial_zoom_scale]) (by norm_num [initial_zoom_scale])⟩

/-- Witness for C4 at the factors `11/10` and `9/10` and a one-tick
zoom-out hold. -/
theorem C4_zoom_clamp_witness :
    ((1 : ℚ) < 11 / 10 ∧ (0 : ℚ) < 9 / 10 ∧ (9 : ℚ) / 10 < 1) ∧
    (zoom_tick (11 / 10) (9 / 10) true false 1 =
        clampQ (1 * (11 / 10)) (1 / 2) 2 ∧
     zoom_tick (11 / 10) (9 / 10) false true 1 =
        clampQ (1 * (9 / 10)) (1 / 2) 2 ∧
     (1 / 2 ≤ zoom_run (11 / 10) (9 / 10) [(true, false)] initial_zoom_scale ∧
      zoom_run (11 / 10) (9 / 10) [(true, false)] initial_zoom_scale ≤ 2)) :=
  ⟨⟨by norm_num, by norm_num, by norm_num⟩,
   C4_zoom_clamp (11 / 10) (9 / 10) (by norm_num) (by norm_num) (by norm_num)
     1 [(true, false)]⟩

end BoarGame
